import Mathlib

/-!
Verification development for the livelamp firmware.

Shallow embedding of the parts of the code that the specification's
testable properties talk about:

* `src/drivers/ld2410.py` — the UART frame decoder (`LD2410._read_frame`,
  `LD2410.read_data`).  Bytes are modelled as `Nat` (values 0..255), the
  byte stream available to one call as a `List Nat`, and the per-call
  timeout as exhaustion of that list.  `_read_frame` reads one byte per
  loop iteration, so within one call the UART-level chunking is invisible.
* `src/drivers/neopixel_ring.py` — the animation engine state and the
  `set_pattern`, `set_color`, `set_color_hex` and fade/rainbow/dream
  renderers.  Python floats are modelled as rationals (`ℚ`) except where
  `math.sin` forces real numbers; `int(...)` truncation toward zero is
  `pyIntQ` / `pyIntR`.
* `src/web_server.py` — the `/api/leds` POST handler `control_leds`.
  A raised Python exception is an `Except.error`.
* `src/main.py` — the structural fault boundaries of the three scheduled
  activities.
* `src/drivers/sma.py` — `SMA.set_duty`.
-/

namespace LiveLamp

/-- Truncation toward zero, the semantics of Python `int(x)` on a rational. -/
def pyIntQ (q : ℚ) : ℤ := if 0 ≤ q then ⌊q⌋ else ⌈q⌉

/-! ## FrameDecoder: `LD2410._read_frame` / `LD2410.read_data` -/

/-- `LD2410.FRAME_HEADER = bytes([0xF4, 0xF3, 0xF2, 0xF1])`. -/
def FRAME_HEADER : List Nat := [244, 243, 242, 241]

/-- `LD2410.FRAME_FOOTER = bytes([0xF8, 0xF7, 0xF6, 0xF5])`. -/
def FRAME_FOOTER : List Nat := [248, 247, 246, 245]

/-- `bytearray.find(pattern)`: index of the first occurrence of the 4-byte
header in the buffer, `none` when absent (Python returns `-1`). -/
def findHeader : List Nat → Option Nat
  | [] => none
  | x :: xs =>
    if (x :: xs).take 4 = FRAME_HEADER then some 0
    else Option.map (· + 1) (findHeader xs)

/-- `int.from_bytes([lo, hi], 'little')`. -/
def le16 (lo hi : Nat) : Nat := lo + 256 * hi

/-- Result of one iteration of the `while` loop in `LD2410._read_frame`
after a byte has been appended: either the loop continues with an updated
buffer, or a complete validated frame is returned. -/
inductive Step where
  | cont : List Nat → Step
  | frame : List Nat → Step
deriving DecidableEq

/-- One iteration of the loop body of `LD2410._read_frame` (lines 77-98):
append the received byte to the buffer, and if the buffer holds at least 10
bytes, look for the header; once the length field is present compute
`expected_size = header_idx + 10 + length`; once the buffer reaches that
size compare the 4 bytes before `expected_size` with the footer: on a match
return `buffer[header_idx:expected_size]`, on a mismatch drop everything up
to and including the 4 header bytes and continue. -/
def processByte (buffer : List Nat) (b : Nat) : Step :=
  let buf := buffer ++ [b]
  if buf.length ≥ 10 then
    match findHeader buf with
    | some i =>
      if buf.length ≥ i + 6 then
        let len := le16 (buf.getD (i + 4) 0) (buf.getD (i + 5) 0)
        let expected := i + 10 + len
        if buf.length ≥ expected then
          if (buf.drop (expected - 4)).take 4 = FRAME_FOOTER then
            Step.frame ((buf.drop i).take (expected - i))
          else
            Step.cont (buf.drop (i + 4))
        else Step.cont buf
      else Step.cont buf
    | none => Step.cont buf
  else Step.cont buf

/-- The `while` loop of `LD2410._read_frame`, driven by the list of bytes
the UART delivers during this call; the timeout expiring with no complete
frame corresponds to exhausting the list and returning `none`. -/
def runLoop : List Nat → List Nat → Option (List Nat)
  | _, [] => none
  | buffer, b :: rest =>
    match processByte buffer b with
    | Step.frame f => some f
    | Step.cont buf => runLoop buf rest

/-- `LD2410._read_frame`: the buffer starts empty on every call
(`buffer = bytearray()` is a local variable, line 74). -/
def readFrame (input : List Nat) : Option (List Nat) := runLoop [] input

/-- `LD2410._last_data` plus the `presence_gpio` key that `read_data`
maintains. -/
structure SensorData where
  presence : Bool
  target_state : Nat
  moving_distance : Nat
  moving_energy : Nat
  static_distance : Nat
  static_energy : Nat
  detection_distance : Nat
  presence_gpio : Bool
deriving DecidableEq, Repr

/-- The all-zero/false initial `_last_data` built in `LD2410.__init__`
(the `presence_gpio` key is only added by `read_data`; modelled as an
initially-false field). -/
def initData : SensorData :=
  { presence := false, target_state := 0, moving_distance := 0,
    moving_energy := 0, static_distance := 0, static_energy := 0,
    detection_distance := 0, presence_gpio := false }

/-- The frame-acceptance test of `LD2410.read_data` (lines 113-117):
at least 23 bytes and payload tag `0x02 0xAA` at offsets 6 and 7. -/
def acceptsFrame (f : List Nat) : Prop :=
  f.length ≥ 23 ∧ f.getD 6 0 = 2 ∧ f.getD 7 0 = 170

instance (f : List Nat) : Decidable (acceptsFrame f) := by
  unfold acceptsFrame; infer_instance

/-- The field extraction of `LD2410.read_data` (lines 113-134): update
`_last_data` from an accepted frame, otherwise leave it unchanged. -/
def parseFrame (f : List Nat) (st : SensorData) : SensorData :=
  if f.length ≥ 23 then
    if f.getD 6 0 = 2 ∧ f.getD 7 0 = 170 then
      let ts := f.getD 8 0
      { st with
        presence := decide (0 < ts),
        target_state := ts,
        moving_distance := le16 (f.getD 9 0) (f.getD 10 0),
        moving_energy := f.getD 11 0,
        static_distance := le16 (f.getD 12 0) (f.getD 13 0),
        static_energy := f.getD 14 0,
        detection_distance := le16 (f.getD 15 0) (f.getD 16 0) }
    else st
  else st

/-- `LD2410.read_data`: when the UART has bytes (`chunk` nonempty), run
`_read_frame` over them; on an accepted frame overwrite `_last_data`;
always refresh `presence_gpio` from the GPIO line and return the result. -/
def read_data (st : SensorData) (chunk : List Nat) (gpio : Bool) : SensorData :=
  let st₁ :=
    if chunk.isEmpty then st
    else
      match readFrame chunk with
      | some f => parseFrame f st
      | none => st
  { st₁ with presence_gpio := gpio }

/-- The exact byte sequence of the spec's decode scenario:
`F4 F3 F2 F1 11 00 02 AA 02 32 00 0A 03 64 00 64 F8 F7 F6 F5`. -/
def specScenarioBytes : List Nat :=
  [244, 243, 242, 241, 17, 0, 2, 170, 2, 50, 0, 10, 3, 100, 0, 100,
   248, 247, 246, 245]

/-- A well-formed 23-byte target-report frame carrying the field values the
scenario names: length field `0x000D` (13-byte payload, the size
`read_data` expects), tag `02 AA`, `target_state = 2`,
`moving_distance = 0x32`, `moving_energy = 0x0A`,
`static_distance = 0x64`, `static_energy = 0x64`,
`detection_distance = 0`. -/
def goodBytes : List Nat :=
  [244, 243, 242, 241, 13, 0, 2, 170, 2, 50, 0, 10, 100, 0, 100, 0, 0,
   85, 0, 248, 247, 246, 245]

/-- The sensor state produced by decoding `goodBytes` from `initData`. -/
def goodState : SensorData :=
  { presence := true, target_state := 2, moving_distance := 50,
    moving_energy := 10, static_distance := 100, static_energy := 100,
    detection_distance := 0, presence_gpio := false }

/-- `goodBytes` with its last footer byte corrupted (`F5` replaced by `00`):
header and length field validate but the footer comparison fails. -/
def badFrame : List Nat := goodBytes.take 22 ++ [0]

/-! ## AnimationEngine: `NeopixelRing` -/

/-- The mutable state of a `NeopixelRing` set up in `NeopixelRing.__init__`
(lines 29-43): the shared color/white/pattern fields and every
pattern-private variable.  Phases, hue and rainbow offset are float-valued
in the source and modelled as rationals; colors are integer tuples. -/
structure RingState where
  color : ℤ × ℤ × ℤ
  white : ℤ
  pattern : String
  breathe_phase : ℚ
  fade_current_color : ℤ × ℤ × ℤ
  fade_target_color : ℤ × ℤ × ℤ
  fade_progress : ℕ
  rainbow_offset : ℚ
  dream_phase : ℚ
  dream_hue : ℚ
  fire_current : ℤ × ℤ × ℤ × ℤ
  fire_target : ℤ × ℤ × ℤ × ℤ
  fire_progress : ℕ
deriving DecidableEq, Repr

/-- The initial state built by `NeopixelRing.__init__`. -/
def initRing : RingState :=
  { color := (0, 0, 0), white := 0, pattern := "solid",
    breathe_phase := 0,
    fade_current_color := (255, 0, 0), fade_target_color := (0, 255, 0),
    fade_progress := 0,
    rainbow_offset := 0, dream_phase := 0, dream_hue := 0,
    fire_current := (255, 180, 50, 100), fire_target := (255, 200, 30, 120),
    fire_progress := 0 }

/-- A ring state mid-animation: nonzero breathe phase, fade progress and
rainbow offset, used to probe what a pattern switch preserves. -/
def perturbedRing : RingState :=
  { color := (0, 0, 0), white := 0, pattern := "breathe",
    breathe_phase := 5,
    fade_current_color := (255, 0, 0), fade_target_color := (0, 255, 0),
    fade_progress := 7,
    rainbow_offset := 90, dream_phase := 0, dream_hue := 0,
    fire_current := (255, 180, 50, 100), fire_target := (255, 200, 30, 120),
    fire_progress := 0 }

/-- `NeopixelRing.set_pattern` (lines 125-134): store the new pattern name.
The only other effect in the source is re-writing the LED hardware when the
new pattern is `'solid'`; no state variable besides `_pattern` is touched. -/
def set_pattern (st : RingState) (pattern : String) : RingState :=
  { st with pattern := pattern }

/-- `max(0, min(255, v))`, the channel clamp used in
`NeopixelRing.set_color`. -/
def clamp255 (v : ℤ) : ℤ := max 0 (min 255 v)

/-- `NeopixelRing.set_color` (lines 57-71): clamp each channel to
`[0, 255]` and store the RGB triple. -/
def set_color (st : RingState) (r g b : ℤ) : RingState :=
  { st with color := (clamp255 r, clamp255 g, clamp255 b) }

/-- Hex digit value accepted by Python `int(s, 16)`. -/
def hexDigit (c : Char) : Option ℕ :=
  if '0' ≤ c ∧ c ≤ '9' then some (c.toNat - '0'.toNat)
  else if 'a' ≤ c ∧ c ≤ 'f' then some (c.toNat - 'a'.toNat + 10)
  else if 'A' ≤ c ∧ c ≤ 'F' then some (c.toNat - 'A'.toNat + 10)
  else none

/-- Python `int(s, 16)` on a slice: succeeds on a nonempty all-hex-digit
string, raises `ValueError` (here `none`) otherwise. -/
def parseHex (cs : List Char) : Option ℕ :=
  match cs with
  | [] => none
  | _ =>
    cs.foldl (fun acc c =>
      match acc, hexDigit c with
      | some v, some d => some (16 * v + d)
      | _, _ => none) (some 0)

/-- `hex_color[a:b]` on the character list of the string. -/
def slice (cs : List Char) (a b : ℕ) : List Char := (cs.drop a).take (b - a)

/-- `hex_color.lstrip('#')`. -/
def stripHash (cs : List Char) : List Char := cs.dropWhile (· = '#')

/-- `NeopixelRing.set_color_hex` (lines 73-84): strip leading `#`, parse
the three 2-character slices with `int(_, 16)`, and call `set_color`.
A parse failure is the `ValueError` the source lets escape. -/
def set_color_hex (st : RingState) (hex_color : String) : Except Unit RingState :=
  let cs := stripHash hex_color.toList
  match parseHex (slice cs 0 2), parseHex (slice cs 2 4), parseHex (slice cs 4 6) with
  | some r, some g, some b => Except.ok (set_color st r g b)
  | _, _, _ => Except.error ()

/-- `random.randint(lo, hi)` driven by one draw `r` from an abstract
entropy source: a value in `[lo, hi]`. -/
def randint (lo hi r : ℕ) : ℕ := lo + r % (hi - lo + 1)

/-- The color `NeopixelRing._render_fade` writes to every LED before it
advances the state (lines 288-298): the interpolation
`int(c1 + (c2 - c1) * t)` at `t = _fade_progress / 100.0`. -/
def fadeOutput (st : RingState) : ℤ × ℤ × ℤ :=
  let t : ℚ := (st.fade_progress : ℚ) / 100
  let c₁ := st.fade_current_color
  let c₂ := st.fade_target_color
  (pyIntQ ((c₁.1 : ℚ) + ((c₂.1 : ℚ) - (c₁.1 : ℚ)) * t),
   pyIntQ ((c₁.2.1 : ℚ) + ((c₂.2.1 : ℚ) - (c₁.2.1 : ℚ)) * t),
   pyIntQ ((c₁.2.2 : ℚ) + ((c₂.2.2 : ℚ) - (c₁.2.2 : ℚ)) * t))

/-- The state advance of `NeopixelRing._render_fade` (lines 302-313):
increment `_fade_progress`; on reaching 100, promote the target to
current, draw a fresh random target with all channels in `[50, 255]`
(three entropy draws `r₁ r₂ r₃`), and reset progress to 0. -/
def render_fade (st : RingState) (r₁ r₂ r₃ : ℕ) : RingState :=
  let p := st.fade_progress + 1
  if p ≥ 100 then
    { st with
      fade_current_color := st.fade_target_color,
      fade_target_color :=
        ((randint 50 255 r₁ : ℤ), (randint 50 255 r₂ : ℤ), (randint 50 255 r₃ : ℤ)),
      fade_progress := 0 }
  else { st with fade_progress := p }

/-- `n` successive fade renders fed from an entropy stream `rng`; each
render consumes the next three draws. -/
def render_fadeN : RingState → (ℕ → ℕ) → ℕ → RingState
  | st, _, 0 => st
  | st, rng, n + 1 =>
    render_fadeN (render_fade st (rng 0) (rng 1) (rng 2)) (fun k => rng (k + 3)) n

/-- Python `x % y` for rationals with `y > 0`: the representative in
`[0, y)`, as used for `% 360` and the float `% 2` in the hue
conversion. -/
def qmod (a b : ℚ) : ℚ := a - b * ⌊a / b⌋

/-- The hue-to-RGB sector interpolation shared by
`NeopixelRing._render_rainbow` (lines 321-338) and
`NeopixelRing._render_dream` (lines 248-265): chroma 1, second component
`x = 1 - |((h % 2) - 1)|` with `h = hue / 60`. -/
def hueToRgb (hue : ℚ) : ℚ × ℚ × ℚ :=
  let h := hue / 60
  let x := 1 - |qmod h 2 - 1|
  if 0 ≤ h ∧ h < 1 then (1, x, 0)
  else if 1 ≤ h ∧ h < 2 then (x, 1, 0)
  else if 2 ≤ h ∧ h < 3 then (0, 1, x)
  else if 3 ≤ h ∧ h < 4 then (0, x, 1)
  else if 4 ≤ h ∧ h < 5 then (x, 0, 1)
  else (1, 0, x)

/-- The per-LED hue of `NeopixelRing._render_rainbow` (line 319):
`((i * 360 / num_leds) + offset) % 360`. -/
def rainbowHue (num_leds : ℕ) (i : ℕ) (offset : ℚ) : ℚ :=
  qmod ((i : ℚ) * 360 / (num_leds : ℚ) + offset) 360

/-- The RGB triple `NeopixelRing._render_rainbow` writes for one LED
(lines 340-346): `int(rgb[c] * 255)` per channel, white forced to 0. -/
def rainbowPixel (num_leds : ℕ) (i : ℕ) (offset : ℚ) : ℤ × ℤ × ℤ :=
  let rgb := hueToRgb (rainbowHue num_leds i offset)
  (pyIntQ (rgb.1 * 255), pyIntQ (rgb.2.1 * 255), pyIntQ (rgb.2.2 * 255))

/-- The breathe/dream brightness formula
`0.3 + 0.7 * ((math.sin(phase) + 1) / 2)` of
`NeopixelRing._render_breathe` (line 194) and
`NeopixelRing._render_dream` (line 246). -/
noncomputable def brightness (phase : ℝ) : ℝ :=
  0.3 + 0.7 * ((Real.sin phase + 1) / 2)

/-- Truncation toward zero, the semantics of Python `int(x)` on a real. -/
noncomputable def pyIntR (x : ℝ) : ℤ :=
  letI := Classical.propDecidable (0 ≤ x)
  if 0 ≤ x then ⌊x⌋ else ⌈x⌉

/-- The RGB triple `NeopixelRing._render_dream` writes for every LED
(lines 268-274): the hue sector color scaled by 255 and by the breathe
brightness, truncated; white forced to 0. -/
noncomputable def dreamPixel (hue : ℚ) (phase : ℝ) : ℤ × ℤ × ℤ :=
  let rgb := hueToRgb hue
  (pyIntR ((rgb.1 : ℝ) * 255 * brightness phase),
   pyIntR ((rgb.2.1 : ℝ) * 255 * brightness phase),
   pyIntR ((rgb.2.2 : ℝ) * 255 * brightness phase))

/-! ## Serving layer: `web_server.py` `control_leds` -/

/-- The JSON body of a POST to `/api/leds` as `control_leds` inspects it:
which of the keys `hex`, `r`, `g`, `b` are present and their values. -/
structure LedRequest where
  hex : Option String
  r : Option ℤ
  g : Option ℤ
  b : Option ℤ

/-- The outcome `control_leds` hands back to microdot when it does not
raise: either the updated LED state with HTTP 200, or an error body with
HTTP 400. -/
inductive LedResponse where
  | ok : RingState → LedResponse
  | badRequest : LedResponse
deriving DecidableEq

/-- `control_leds` in `web_server.py` (lines 69-80): falsy/absent JSON or
no recognized color keys give a 400 response and leave the state alone;
a present `hex` key goes through `set_color_hex` (whose `ValueError`
escapes the handler as `Except.error`); otherwise present `r`, `g`, `b`
go through `set_color`.  The returned pair is (response, device state
after the call). -/
def control_leds (st : RingState) (req : Option LedRequest) :
    Except Unit (LedResponse × RingState) :=
  match req with
  | none => Except.ok (LedResponse.badRequest, st)
  | some data =>
    match data.hex with
    | some h =>
      match set_color_hex st h with
      | Except.ok st' => Except.ok (LedResponse.ok st', st')
      | Except.error e => Except.error e
    | none =>
      match data.r, data.g, data.b with
      | some r, some g, some b =>
        let st' := set_color st r g b
        Except.ok (LedResponse.ok st', st')
      | _, _, _ => Except.ok (LedResponse.badRequest, st)

/-! ## CooperativeScheduler: `main.py` -/

/-- The three scheduled activities of `LiveLamp.start_tasks`. -/
inductive Activity where
  | sensor
  | pattern
  | serving
deriving DecidableEq

/-- The per-pattern cadence chosen by `LiveLamp.pattern_task`
(lines 129-143), in milliseconds. -/
def patternSleepMs (pattern : String) : ℕ :=
  if pattern = "solid" then 100
  else if pattern = "breathe" then 30
  else if pattern = "fade" then 50
  else if pattern = "rainbow" then 50
  else if pattern = "fire" then 60
  else if pattern = "dream" then 30
  else 100

/-- One iteration of the `while True` loop of `LiveLamp.sensor_task`
(lines 96-115): the body is wrapped in `try/except`; `some d` is the
suspension (ms) before the next iteration, `none` would mean the loop
dies.  On success it sleeps 100 ms, on any exception the handler sleeps
1000 ms and the loop continues. -/
def sensor_iter (bodyRaises : Bool) : Option ℕ :=
  if bodyRaises then some 1000 else some 100

/-- One iteration of the `while True` loop of `LiveLamp.pattern_task`
(lines 123-147), same `try/except` shape with the pattern-chosen
cadence. -/
def pattern_iter (bodyRaises : Bool) (pattern : String) : Option ℕ :=
  if bodyRaises then some 1000 else some (patternSleepMs pattern)

/-- The backoff `main.py` applies at an activity's boundary when its body
raises.  `sensor_task` and `pattern_task` wrap their bodies in
`try/except Exception` with `asyncio.sleep(1)`; the serving coroutine
(`web_server.app.start_server`, line 156) is passed to `asyncio.gather`
in `LiveLamp.start_tasks` with no handler in `main.py` at all, so there
is no boundary backoff for it (`none`). -/
def activityBackoffMs : Activity → Option ℕ
  | Activity.sensor => some 1000
  | Activity.pattern => some 1000
  | Activity.serving => none

/-! ## `SMA.set_duty` (`src/drivers/sma.py`) -/

/-- `SMA.set_duty` (lines 22-32): clamp the requested percentage with
`max(0, min(100, percent))`, derive the raw PWM value
`int(percent * 1023 / 100)`, and store the clamped percentage (returned
afterwards by `get_percent`/`get_state`).  The pair is (stored
percentage, raw duty written to the PWM). -/
def set_duty (percent : ℚ) : ℚ × ℤ :=
  let p := max 0 (min 100 percent)
  (p, pyIntQ (p * 1023 / 100))

/-! ## Decoder lemmas -/

lemma findHeader_eq_none {l : List Nat} (h : (244 : Nat) ∉ l) :
    findHeader l = none := by
  induction l with
  | nil => rfl
  | cons x xs ih =>
    have hx : x ≠ 244 := fun hx => h (by simp [hx])
    have hxs : (244 : Nat) ∉ xs := fun hm => h (List.mem_cons_of_mem _ hm)
    have hcond : ¬((x :: xs).take 4 = FRAME_HEADER) := by
      intro hEq
      have h4 : (x :: xs).take 4 = x :: xs.take 3 := rfl
      rw [h4, FRAME_HEADER] at hEq
      injection hEq with h1 _
      exact hx h1
    rw [findHeader, if_neg hcond, ih hxs]
    rfl

lemma findHeader_append {g : List Nat} (hg : (244 : Nat) ∉ g) (l : List Nat) :
    findHeader (g ++ l) = (findHeader l).map (· + g.length) := by
  induction g with
  | nil =>
    show findHeader ([] ++ l) = _
    rw [List.nil_append]
    cases hE : findHeader l <;> simp [hE]
  | cons x xs ih =>
    have hx : x ≠ 244 := fun hx => hg (by simp [hx])
    have hxs : (244 : Nat) ∉ xs := fun hm => hg (List.mem_cons_of_mem _ hm)
    have hcond : ¬((x :: (xs ++ l)).take 4 = FRAME_HEADER) := by
      intro hEq
      have h4 : (x :: (xs ++ l)).take 4 = x :: (xs ++ l).take 3 := rfl
      rw [h4, FRAME_HEADER] at hEq
      injection hEq with h1 _
      exact hx h1
    show findHeader (x :: (xs ++ l)) = _
    rw [findHeader, if_neg hcond, ih hxs]
    cases findHeader l <;> simp [Nat.add_assoc]

lemma findHeader_of_take4 {l : List Nat} (h : l.take 4 = FRAME_HEADER) :
    findHeader l = some 0 := by
  cases l with
  | nil => exact absurd h (by decide)
  | cons x xs => rw [findHeader, if_pos h]

lemma processByte_cont_of_no_header {buffer : List Nat} {b : Nat}
    (h : findHeader (buffer ++ [b]) = none) :
    processByte buffer b = Step.cont (buffer ++ [b]) := by
  by_cases h10 : (buffer ++ [b]).length ≥ 10 <;>
    simp [processByte, h10, h]

lemma runLoop_garbage : ∀ g acc rest : List Nat,
    (244 : Nat) ∉ acc → (244 : Nat) ∉ g →
    runLoop acc (g ++ rest) = runLoop (acc ++ g) rest := by
  intro g
  induction g with
  | nil =>
    intro acc rest _ _
    simp
  | cons b g' ih =>
    intro acc rest hacc hg
    have hb : (244 : Nat) ∉ acc ++ [b] := by
      intro hm
      rcases List.mem_append.mp hm with hm | hm
      · exact hacc hm
      · have hb244 : b = 244 := (List.mem_singleton.mp hm).symm
        exact hg (by simp [hb244])
    have hg' : (244 : Nat) ∉ g' := fun hm => hg (List.mem_cons_of_mem _ hm)
    show runLoop acc (b :: (g' ++ rest)) = _
    rw [runLoop, processByte_cont_of_no_header (findHeader_eq_none hb)]
    show runLoop (acc ++ [b]) (g' ++ rest) = _
    rw [ih (acc ++ [b]) rest hb hg']
    simp

lemma goodBytes_take_succ {m : Nat} (hm : m < 23) :
    goodBytes.take m ++ [goodBytes.getD m 0] = goodBytes.take (m + 1) := by
  interval_cases m <;> decide

lemma getD_goodBytes_take {k j : Nat} (hj : j < k) :
    (goodBytes.take k).getD j 0 = goodBytes.getD j 0 := by
  rw [List.getD_eq_getElem?_getD, List.getD_eq_getElem?_getD,
    List.getElem?_take_of_lt hj]

lemma processByte_goodBytes_mid {g : List Nat} (hg : (244 : Nat) ∉ g)
    {m : Nat} (hm : m < 22) :
    processByte (g ++ goodBytes.take m) (goodBytes.getD m 0) =
      Step.cont (g ++ goodBytes.take (m + 1)) := by
  have hbuf : (g ++ goodBytes.take m) ++ [goodBytes.getD m 0] =
      g ++ goodBytes.take (m + 1) := by
    rw [List.append_assoc, goodBytes_take_succ (by omega)]
  have hlen : (g ++ goodBytes.take (m + 1)).length = g.length + (m + 1) := by
    rw [List.length_append, List.length_take]
    have h23 : goodBytes.length = 23 := by decide
    omega
  simp only [processByte, hbuf]
  by_cases h10 : (g ++ goodBytes.take (m + 1)).length ≥ 10
  · rw [if_pos h10, findHeader_append hg]
    by_cases h4 : m + 1 < 4
    · have hnone : findHeader (goodBytes.take (m + 1)) = none := by
        have hm3 : m = 0 ∨ m = 1 ∨ m = 2 := by omega
        rcases hm3 with h | h | h <;> subst h <;> decide
      rw [hnone]
      rfl
    · have hsome : findHeader (goodBytes.take (m + 1)) = some 0 := by
        apply findHeader_of_take4
        rw [List.take_take]
        have hmin : min 4 (m + 1) = 4 := by omega
        rw [hmin]
        decide
      rw [hsome]
      simp only [Option.map_some', Nat.zero_add]
      by_cases h6 : (g ++ goodBytes.take (m + 1)).length ≥ g.length + 6
      · rw [if_pos h6]
        have h6' : 6 ≤ m + 1 := by omega
        have e4 : (g ++ goodBytes.take (m + 1)).getD (g.length + 4) 0 = 13 := by
          rw [List.getD_append_right _ _ _ _ (by omega)]
          have h45 : g.length + 4 - g.length = 4 := by omega
          rw [h45, getD_goodBytes_take (by omega)]
          decide
        have e5 : (g ++ goodBytes.take (m + 1)).getD (g.length + 5) 0 = 0 := by
          rw [List.getD_append_right _ _ _ _ (by omega)]
          have h55 : g.length + 5 - g.length = 5 := by omega
          rw [h55, getD_goodBytes_take (by omega)]
          decide
        rw [e4, e5]
        have hexp : ¬((g ++ goodBytes.take (m + 1)).length ≥
            g.length + 10 + le16 13 0) := by
          rw [hlen]
          unfold le16
          omega
        rw [if_neg hexp]
      · rw [if_neg h6]
  · rw [if_neg h10]

lemma processByte_goodBytes_last {g : List Nat} (hg : (244 : Nat) ∉ g) :
    processByte (g ++ goodBytes.take 22) (goodBytes.getD 22 0) =
      Step.frame goodBytes := by
  have hbuf : (g ++ goodBytes.take 22) ++ [goodBytes.getD 22 0] =
      g ++ goodBytes := by
    rw [List.append_assoc, goodBytes_take_succ (by omega)]
    congr 1
  have hlen : (g ++ goodBytes).length = g.length + 23 := by
    rw [List.length_append]
    have h23 : goodBytes.length = 23 := by decide
    omega
  simp only [processByte, hbuf]
  have h10 : (g ++ goodBytes).length ≥ 10 := by omega
  rw [if_pos h10, findHeader_append hg, findHeader_of_take4 (by decide)]
  simp only [Option.map_some', Nat.zero_add]
  have h6 : (g ++ goodBytes).length ≥ g.length + 6 := by omega
  rw [if_pos h6]
  have e4 : (g ++ goodBytes).getD (g.length + 4) 0 = 13 := by
    rw [List.getD_append_right _ _ _ _ (by omega)]
    have h45 : g.length + 4 - g.length = 4 := by omega
    rw [h45]
    decide
  have e5 : (g ++ goodBytes).getD (g.length + 5) 0 = 0 := by
    rw [List.getD_append_right _ _ _ _ (by omega)]
    have h55 : g.length + 5 - g.length = 5 := by omega
    rw [h55]
    decide
  rw [e4, e5]
  have hexp : (g ++ goodBytes).length ≥ g.length + 10 + le16 13 0 := by
    rw [hlen]
    unfold le16
    omega
  rw [if_pos hexp]
  have hidx : g.length + 10 + le16 13 0 - 4 = g.length + 19 := by
    unfold le16
    omega
  rw [hidx, List.drop_append 19]
  rw [if_pos (by decide : (goodBytes.drop 19).take 4 = FRAME_FOOTER)]
  have hdropg : (g ++ goodBytes).drop g.length = goodBytes := List.drop_left g goodBytes
  rw [hdropg]
  have htake : g.length + 10 + le16 13 0 - g.length = 23 := by
    unfold le16
    omega
  rw [htake]
  decide

lemma runLoop_goodBytes_from {g : List Nat} (hg : (244 : Nat) ∉ g) :
    ∀ j m, m + j = 22 →
      runLoop (g ++ goodBytes.take m) (goodBytes.drop m) = some goodBytes := by
  intro j
  induction j with
  | zero =>
    intro m hm
    have hm22 : m = 22 := by omega
    subst hm22
    have hdrop : goodBytes.drop 22 = [goodBytes.getD 22 0] := by decide
    rw [hdrop, runLoop, processByte_goodBytes_last hg]
  | succ j ih =>
    intro m hm
    have hmlt : m < 22 := by omega
    have hdrop : goodBytes.drop m = goodBytes.getD m 0 :: goodBytes.drop (m + 1) := by
      interval_cases m <;> decide
    rw [hdrop, runLoop, processByte_goodBytes_mid hg hmlt]
    exact ih (m + 1) (by omega)

lemma readFrame_garbage_goodBytes {g : List Nat} (hg : (244 : Nat) ∉ g) :
    readFrame (g ++ goodBytes) = some goodBytes := by
  unfold readFrame
  rw [runLoop_garbage g [] goodBytes (by simp) hg]
  have h := runLoop_goodBytes_from hg 22 0 rfl
  simpa using h

lemma readFrame_no_header {input : List Nat} (h : (244 : Nat) ∉ input) :
    readFrame input = none := by
  unfold readFrame
  have hrw := runLoop_garbage input [] [] (by simp) h
  rw [List.append_nil] at hrw
  rw [hrw]
  simp [runLoop]

lemma parseFrame_eq_of_not_accepts {f : List Nat} (st : SensorData)
    (h : ¬ acceptsFrame f) : parseFrame f st = st := by
  unfold acceptsFrame at h
  unfold parseFrame
  by_cases h23 : f.length ≥ 23
  · by_cases htag : f.getD 6 0 = 2 ∧ f.getD 7 0 = 170
    · exact absurd ⟨h23, htag.1, htag.2⟩ h
    · rw [if_pos h23, if_neg htag]
  · rw [if_neg h23]

/-! ## Claim theorems: frame decoder -/

/-- C1 counterexample: the valid 23-byte frame `goodBytes` decoded within
one `read_data` call yields the decoded state, but the same bytes split
12/11 across two successive `read_data` calls yield no frame at all, so
the decode result is not independent of how the sequence is split across
calls: the buffer is a local variable of `_read_frame` and partial-frame
bytes are discarded when a call returns. -/
theorem c1_cex_chunking_across_calls_matters :
    read_data initData goodBytes false = goodState ∧
    read_data (read_data initData (goodBytes.take 12) false)
      (goodBytes.drop 12) false = initData ∧
    goodState ≠ initData := by decide

/-- C1 (amended): within a single `read_data` call the decoder is exact —
prefixed by any garbage free of the header byte `0xF4`, the one valid
frame is extracted and parsed into the state, and such garbage alone
yields no frame; but no bytes are retained between calls, because each
call's result is a pure function of that call's bytes alone. -/
theorem c1_single_call_decoding (g : List Nat) (hg : (244 : Nat) ∉ g) :
    readFrame (g ++ goodBytes) = some goodBytes ∧
    readFrame g = none ∧
    read_data initData (g ++ goodBytes) false = goodState := by
  refine ⟨readFrame_garbage_goodBytes hg, readFrame_no_header hg, ?_⟩
  have hne : (g ++ goodBytes).isEmpty = false := by cases g <;> rfl
  unfold read_data
  rw [readFrame_garbage_goodBytes hg, hne]
  decide

/-- Witness for C1 (amended) at the concrete garbage prefix `[1,2,3,250]`. -/
theorem c1_single_call_decoding_witness :
    (244 : Nat) ∉ ([1, 2, 3, 250] : List Nat) ∧
    (readFrame ([1, 2, 3, 250] ++ goodBytes) = some goodBytes ∧
     readFrame [1, 2, 3, 250] = none ∧
     read_data initData ([1, 2, 3, 250] ++ goodBytes) false = goodState) :=
  ⟨by decide, c1_single_call_decoding [1, 2, 3, 250] (by decide)⟩

/-- C2: when the buffer (after appending the newest byte) has a header at
index `i`, a readable length field, and the declared `expected_size` worth
of bytes, but the 4 bytes before `expected_size` are not the footer, that
loop iteration of `_read_frame` discards exactly the bytes up to and
including the 4 header bytes and keeps the remainder; and a
corrupted-footer frame followed by a valid frame in the same stream still
yields the valid frame within the same call. -/
theorem c2_resynchronization (buffer : List Nat) (b : Nat) (i : Nat)
    (h10 : (buffer ++ [b]).length ≥ 10)
    (hfind : findHeader (buffer ++ [b]) = some i)
    (h6 : (buffer ++ [b]).length ≥ i + 6)
    (hexp : (buffer ++ [b]).length ≥ i + 10 +
      le16 ((buffer ++ [b]).getD (i + 4) 0) ((buffer ++ [b]).getD (i + 5) 0))
    (hbad : ((buffer ++ [b]).drop (i + 10 +
      le16 ((buffer ++ [b]).getD (i + 4) 0) ((buffer ++ [b]).getD (i + 5) 0)
        - 4)).take 4 ≠ FRAME_FOOTER) :
    processByte buffer b = Step.cont ((buffer ++ [b]).drop (i + 4)) ∧
    readFrame (badFrame ++ goodBytes) = some goodBytes := by
  constructor
  · simp only [processByte, hfind]
    rw [if_pos h10, if_pos h6, if_pos hexp, if_neg hbad]
  · decide

/-- Witness for C2 at the concrete corrupt frame `badFrame`. -/
theorem c2_resynchronization_witness :
    ((goodBytes.take 22 ++ [0]).length ≥ 10 ∧
     findHeader (goodBytes.take 22 ++ [0]) = some 0) ∧
    (processByte (goodBytes.take 22) 0 =
      Step.cont ((goodBytes.take 22 ++ [0]).drop (0 + 4)) ∧
     readFrame (badFrame ++ goodBytes) = some goodBytes) :=
  ⟨⟨by decide, by decide⟩,
   c2_resynchronization (goodBytes.take 22) 0 0 (by decide) (by decide)
     (by decide) (by decide) (by decide)⟩

/-- C3 counterexample: the spec's exact byte sequence carries the
little-endian length field `0x0011 = 17`, so `_read_frame` waits for an
expected size of 27 bytes that the 20-byte sequence never reaches (and
`read_data` additionally requires at least 23 bytes): the decoder emits no
frame at all and the state keeps its defaults. -/
theorem c3_cex_spec_bytes_do_not_decode :
    readFrame specScenarioBytes = none ∧
    read_data initData specScenarioBytes false = initData := by decide

/-- C3 (amended): with a length field consistent with the payload
(`0x000D`, the 13-byte report `read_data` expects), the frame carrying
target_state=2, moving_distance=0x32, moving_energy=0x0A,
static_distance=0x64, static_energy=0x64 decodes in one call to exactly
those field values, and any three-chunk split of the same bytes delivered
within that single call yields the identical state, because `_read_frame`
consumes the call's stream one byte at a time. -/
theorem c3_corrected_scenario (a b c : List Nat)
    (h : a ++ b ++ c = goodBytes) :
    read_data initData (a ++ b ++ c) false = goodState ∧
    (read_data initData (a ++ b ++ c) false).target_state = 2 ∧
    (read_data initData (a ++ b ++ c) false).moving_distance = 50 ∧
    (read_data initData (a ++ b ++ c) false).moving_energy = 10 ∧
    (read_data initData (a ++ b ++ c) false).static_distance = 100 ∧
    (read_data initData (a ++ b ++ c) false).static_energy = 100 := by
  rw [h]
  decide

/-- Witness for C3 (amended) at the split 7 / 9 / 7 of the frame. -/
theorem c3_corrected_scenario_witness :
    goodBytes.take 7 ++ (goodBytes.drop 7).take 9 ++ goodBytes.drop 16 =
      goodBytes ∧
    read_data initData (goodBytes.take 7 ++ (goodBytes.drop 7).take 9 ++
      goodBytes.drop 16) false = goodState :=
  ⟨by decide,
   (c3_corrected_scenario (goodBytes.take 7) ((goodBytes.drop 7).take 9)
     (goodBytes.drop 16) (by decide)).1⟩

/-- C8: whenever a `read_data` call decodes no accepted target-report
frame (no bytes available, timeout with an incomplete frame, corrupted
footer, or a decoded frame failing the ≥23-byte/`02 AA` tag test), every
frame-derived field of `_last_data` is left unchanged and the call still
returns that retained state; only the out-of-band `presence_gpio` flag is
refreshed. -/
theorem c8_stale_but_available (st : SensorData) (chunk : List Nat)
    (gpio : Bool) (h : ∀ f, readFrame chunk = some f → ¬ acceptsFrame f) :
    read_data st chunk gpio = { st with presence_gpio := gpio } := by
  unfold read_data
  by_cases hE : chunk.isEmpty
  · simp [hE]
  · cases hF : readFrame chunk with
    | none => simp [hE, hF]
    | some f => simp [hE, hF, parseFrame_eq_of_not_accepts st (h f hF)]

/-- Witness for C8: garbage bytes leave a nontrivial cached state intact. -/
theorem c8_stale_but_available_witness :
    (∀ f, readFrame [1, 2, 3] = some f → ¬ acceptsFrame f) ∧
    read_data goodState [1, 2, 3] true =
      { goodState with presence_gpio := true } := by
  have h : ∀ f, readFrame [1, 2, 3] = some f → ¬ acceptsFrame f := by
    intro f hf
    rw [show readFrame [1, 2, 3] = none from by decide] at hf
    exact absurd hf (by simp)
  exact ⟨h, c8_stale_but_available goodState [1, 2, 3] true h⟩

/-! ## Claim theorems: pattern switching and fade semantics -/

/-- C4 counterexample: `set_pattern` leaves every pattern-private variable
untouched — switching to `fade` from a state with nonzero fade progress,
breathe phase and rainbow offset keeps all of them, instead of resetting
them to the initial values of `__init__`. -/
theorem c4_cex_set_pattern_does_not_reset :
    (set_pattern perturbedRing "fade").fade_progress = 7 ∧
    (set_pattern perturbedRing "fade").breathe_phase = 5 ∧
    (set_pattern perturbedRing "fade").rainbow_offset = 90 ∧
    initRing.fade_progress = 0 ∧ initRing.breathe_phase = 0 ∧
    initRing.rainbow_offset = 0 := by decide

/-- C4 (amended): `set_pattern` changes only the stored pattern name
(plus an immediate hardware re-write for `'solid'`); every pattern-private
variable — breathe phase, fade current/target color and progress, rainbow
offset, dream phase and hue, fire current/target and progress — carries
over unchanged from the previously active pattern, as do the base color
and white channel. -/
theorem c4_set_pattern_changes_only_pattern (st : RingState) (p : String) :
    (set_pattern st p).pattern = p ∧
    (set_pattern st p).breathe_phase = st.breathe_phase ∧
    (set_pattern st p).fade_current_color = st.fade_current_color ∧
    (set_pattern st p).fade_target_color = st.fade_target_color ∧
    (set_pattern st p).fade_progress = st.fade_progress ∧
    (set_pattern st p).rainbow_offset = st.rainbow_offset ∧
    (set_pattern st p).dream_phase = st.dream_phase ∧
    (set_pattern st p).dream_hue = st.dream_hue ∧
    (set_pattern st p).fire_current = st.fire_current ∧
    (set_pattern st p).fire_target = st.fire_target ∧
    (set_pattern st p).fire_progress = st.fire_progress ∧
    (set_pattern st p).color = st.color ∧
    (set_pattern st p).white = st.white :=
  ⟨rfl, rfl, rfl, rfl, rfl, rfl, rfl, rfl, rfl, rfl, rfl, rfl, rfl⟩

lemma randint_mem (lo hi r : ℕ) (h : lo ≤ hi) :
    lo ≤ randint lo hi r ∧ randint lo hi r ≤ hi := by
  unfold randint
  refine ⟨by omega, ?_⟩
  have hlt := Nat.mod_lt r (y := hi - lo + 1) (by omega)
  omega

lemma render_fadeN_progress : ∀ (k : ℕ) (st : RingState) (rng : ℕ → ℕ),
    st.fade_progress + k ≤ 99 →
    render_fadeN st rng k = { st with fade_progress := st.fade_progress + k } := by
  intro k
  induction k with
  | zero =>
    intro st rng _
    rfl
  | succ k ih =>
    intro st rng h
    show render_fadeN (render_fade st (rng 0) (rng 1) (rng 2)) _ k = _
    have hstep : render_fade st (rng 0) (rng 1) (rng 2) =
        { st with fade_progress := st.fade_progress + 1 } := by
      simp only [render_fade]
      rw [if_neg (by omega)]
    rw [hstep, ih _ _ (by simp; omega)]
    have harith : st.fade_progress + 1 + k = st.fade_progress + (k + 1) := by
      omega
    simp [harith]

lemma render_fadeN_reset : ∀ (k : ℕ) (st : RingState) (rng : ℕ → ℕ),
    st.fade_progress + k = 100 → 1 ≤ k →
    render_fadeN st rng k =
      { st with
        fade_current_color := st.fade_target_color,
        fade_target_color :=
          ((randint 50 255 (rng (3 * (k - 1))) : ℤ),
           (randint 50 255 (rng (3 * (k - 1) + 1)) : ℤ),
           (randint 50 255 (rng (3 * (k - 1) + 2)) : ℤ)),
        fade_progress := 0 } := by
  intro k
  induction k with
  | zero =>
    intro st rng h h1
    omega
  | succ k ih =>
    intro st rng h _
    by_cases hk : k = 0
    · subst hk
      have hp : st.fade_progress = 99 := by omega
      show render_fadeN (render_fade st (rng 0) (rng 1) (rng 2))
        (fun j => rng (j + 3)) 0 = _
      have hstep : render_fade st (rng 0) (rng 1) (rng 2) =
          { st with
            fade_current_color := st.fade_target_color,
            fade_target_color :=
              ((randint 50 255 (rng 0) : ℤ), (randint 50 255 (rng 1) : ℤ),
               (randint 50 255 (rng 2) : ℤ)),
            fade_progress := 0 } := by
        simp only [render_fade]
        rw [if_pos (by omega)]
      rw [hstep]
      rfl
    · have hk1 : 1 ≤ k := by omega
      show render_fadeN (render_fade st (rng 0) (rng 1) (rng 2)) _ k = _
      have hstep : render_fade st (rng 0) (rng 1) (rng 2) =
          { st with fade_progress := st.fade_progress + 1 } := by
        simp only [render_fade]
        rw [if_neg (by omega)]
      rw [hstep, ih _ _ (by simp; omega) hk1]
      have e1 : 3 * (k - 1) + 3 = 3 * (k + 1 - 1) := by omega
      have e2 : 3 * (k - 1) + 1 + 3 = 3 * (k + 1 - 1) + 1 := by omega
      have e3 : 3 * (k - 1) + 2 + 3 = 3 * (k + 1 - 1) + 2 := by omega
      simp only []
      rw [e1, e2, e3]

/-- C5: starting from fade progress 0, each of the first 100 renders
displays `fadeOutput`, the truncated linear interpolation between the
original `current_color` and `target_color` at `t = progress / 100`, with
progress equal to the number of renders so far and both colors unchanged;
the 100th render reaches the final step: `current_color` becomes the prior
`target_color`, a fresh random target is drawn with every channel in
`[50, 255]` (the next three entropy draws), and progress resets to 0. -/
theorem c5_fade_semantics (st : RingState) (rng : ℕ → ℕ)
    (h0 : st.fade_progress = 0) :
    (∀ k, k ≤ 99 →
      render_fadeN st rng k = { st with fade_progress := k }) ∧
    render_fadeN st rng 100 =
      { st with
        fade_current_color := st.fade_target_color,
        fade_target_color :=
          ((randint 50 255 (rng 297) : ℤ), (randint 50 255 (rng 298) : ℤ),
           (randint 50 255 (rng 299) : ℤ)),
        fade_progress := 0 } ∧
    (render_fadeN st rng 100).fade_current_color = st.fade_target_color ∧
    (render_fadeN st rng 100).fade_progress = 0 ∧
    (∀ r, (50 : ℤ) ≤ (randint 50 255 r : ℤ) ∧ (randint 50 255 r : ℤ) ≤ 255) := by
  refine ⟨?_, ?_, ?_, ?_, ?_⟩
  · intro k hk
    have := render_fadeN_progress k st rng (by omega)
    rw [this, h0, Nat.zero_add]
  · have := render_fadeN_reset 100 st rng (by omega) (by omega)
    simpa using this
  · have := render_fadeN_reset 100 st rng (by omega) (by omega)
    rw [this]
  · have := render_fadeN_reset 100 st rng (by omega) (by omega)
    rw [this]
  · intro r
    have := randint_mem 50 255 r (by omega)
    exact ⟨by exact_mod_cast this.1, by exact_mod_cast this.2⟩

/-- Witness for C5 at the initial ring state and the identity entropy
stream: after 100 renders the current color is the old green target and
the new target is the concrete in-bounds color produced by draws
297/298/299. -/
theorem c5_fade_semantics_witness :
    initRing.fade_progress = 0 ∧
    (render_fadeN initRing (fun n => n) 100 =
      { initRing with
        fade_current_color := initRing.fade_target_color,
        fade_target_color :=
          ((randint 50 255 297 : ℤ), (randint 50 255 298 : ℤ),
           (randint 50 255 299 : ℤ)),
        fade_progress := 0 }) ∧
    (render_fadeN initRing (fun n => n) 100).fade_current_color = (0, 255, 0) :=
  ⟨rfl, (c5_fade_semantics initRing (fun n => n) rfl).2.1,
   (c5_fade_semantics initRing (fun n => n) rfl).2.2.1⟩

/-! ## Claim theorems: scheduler fault boundaries and SMA clamp -/

/-- C9 counterexample: the request-serving activity has no
catch-and-backoff boundary in `main.py` — its coroutine is passed to
`asyncio.gather` bare — so the claim that each of the three activities
catches body exceptions and backs off about 1 second fails for it. -/
theorem c9_cex_serving_has_no_backoff :
    activityBackoffMs Activity.serving = none ∧
    ¬ (∀ a, activityBackoffMs a = some 1000) := by
  refine ⟨rfl, fun hall => ?_⟩
  have h := hall Activity.serving
  simp [activityBackoffMs] at h

/-- C9 (amended): the frame-ingestion (`sensor_task`) and
animation-rendering (`pattern_task`) loops catch any exception raised in
one iteration of their body at the loop boundary and always continue —
with a 1000 ms backoff suspension after a fault and their normal cadence
otherwise — so a fault in either of them halts nothing; the
request-serving coroutine, by contrast, has no such boundary in
`main.py`. -/
theorem c9_task_fault_isolation (bodyRaises : Bool) (pattern : String) :
    (sensor_iter bodyRaises).isSome = true ∧
    (pattern_iter bodyRaises pattern).isSome = true ∧
    sensor_iter true = some 1000 ∧
    pattern_iter true pattern = some 1000 ∧
    sensor_iter false = some 100 ∧
    pattern_iter false pattern = some (patternSleepMs pattern) ∧
    activityBackoffMs Activity.serving = none := by
  cases bodyRaises <;> exact ⟨rfl, rfl, rfl, rfl, rfl, rfl, rfl⟩

/-- C10: for every numeric duty request, `SMA.set_duty` stores the
percentage clamped into `[0, 100]` (the value later returned by
`get_percent`/`get_state`), and the raw value written to the PWM is
`int(percent * 1023 / 100)` of the clamped percentage, which lies in
`[0, 1023]`. -/
theorem c10_set_duty_clamped (percent : ℚ) :
    0 ≤ (set_duty percent).1 ∧ (set_duty percent).1 ≤ 100 ∧
    0 ≤ (set_duty percent).2 ∧ (set_duty percent).2 ≤ 1023 ∧
    (set_duty percent).2 = pyIntQ ((set_duty percent).1 * 1023 / 100) := by
  have h0 : (0 : ℚ) ≤ max 0 (min 100 percent) := le_max_left _ _
  have h100 : max 0 (min 100 percent) ≤ 100 :=
    max_le (by norm_num) (min_le_left _ _)
  have hq0 : (0 : ℚ) ≤ max 0 (min 100 percent) * 1023 / 100 :=
    div_nonneg (mul_nonneg h0 (by norm_num)) (by norm_num)
  have hq1 : max 0 (min 100 percent) * 1023 / 100 ≤ ((1023 : ℤ) : ℚ) := by
    rw [div_le_iff₀ (by norm_num : (0:ℚ) < 100)]
    push_cast
    nlinarith
  have hfst : (set_duty percent).1 = max 0 (min 100 percent) := rfl
  have hsnd : (set_duty percent).2 =
      pyIntQ (max 0 (min 100 percent) * 1023 / 100) := rfl
  refine ⟨?_, ?_, ?_, ?_, ?_⟩
  · rw [hfst]; exact h0
  · rw [hfst]; exact h100
  · rw [hsnd]; unfold pyIntQ; rw [if_pos hq0]; exact Int.floor_nonneg.mpr hq0
  · rw [hsnd]; unfold pyIntQ; rw [if_pos hq0]
    simpa using Int.floor_le_floor hq1
  · rw [hsnd, hfst]

/-! ## Claim theorems: animation output bounds -/

lemma qmod_bounds (a : ℚ) {b : ℚ} (hb : 0 < b) :
    0 ≤ qmod a b ∧ qmod a b < b := by
  have hbne : b ≠ 0 := ne_of_gt hb
  have h1 : ((⌊a / b⌋ : ℤ) : ℚ) ≤ a / b := Int.floor_le _
  have h2 : a / b < (⌊a / b⌋ : ℚ) + 1 := Int.lt_floor_add_one _
  have hid : b * (a / b) = a := by field_simp
  unfold qmod
  constructor
  · nlinarith [mul_le_mul_of_nonneg_left h1 (le_of_lt hb)]
  · nlinarith [mul_lt_mul_of_pos_left h2 hb]

lemma hueToRgb_bounds (hue : ℚ) :
    (0 ≤ (hueToRgb hue).1 ∧ (hueToRgb hue).1 ≤ 1) ∧
    (0 ≤ (hueToRgb hue).2.1 ∧ (hueToRgb hue).2.1 ≤ 1) ∧
    (0 ≤ (hueToRgb hue).2.2 ∧ (hueToRgb hue).2.2 ≤ 1) := by
  have hq := qmod_bounds (hue / 60) (by norm_num : (0:ℚ) < 2)
  have habs : |qmod (hue / 60) 2 - 1| ≤ 1 :=
    abs_le.mpr ⟨by linarith [hq.1], by linarith [hq.2]⟩
  have habs0 : 0 ≤ |qmod (hue / 60) 2 - 1| := abs_nonneg _
  simp only [hueToRgb]
  split_ifs <;>
    exact ⟨⟨by linarith, by linarith⟩, ⟨by linarith, by linarith⟩,
      ⟨by linarith, by linarith⟩⟩

lemma pyIntQ_bounds {q : ℚ} {hi : ℤ} (h0 : 0 ≤ q) (hhi : q ≤ (hi : ℚ)) :
    0 ≤ pyIntQ q ∧ pyIntQ q ≤ hi := by
  unfold pyIntQ
  rw [if_pos h0]
  exact ⟨Int.floor_nonneg.mpr h0, by simpa using Int.floor_le_floor hhi⟩

lemma pyIntR_bounds {x : ℝ} {hi : ℤ} (h0 : 0 ≤ x) (hhi : x ≤ (hi : ℝ)) :
    0 ≤ pyIntR x ∧ pyIntR x ≤ hi := by
  unfold pyIntR
  rw [if_pos h0]
  exact ⟨Int.floor_nonneg.mpr h0, by simpa using Int.floor_le_floor hhi⟩

lemma brightness_bounds (phase : ℝ) :
    0.3 ≤ brightness phase ∧ brightness phase ≤ 1 := by
  unfold brightness
  have h1 := Real.neg_one_le_sin phase
  have h2 := Real.sin_le_one phase
  constructor <;> nlinarith

lemma rainbow_channel_bounds {c : ℚ} (h0 : 0 ≤ c) (h1 : c ≤ 1) :
    0 ≤ pyIntQ (c * 255) ∧ pyIntQ (c * 255) ≤ 255 := by
  refine pyIntQ_bounds (mul_nonneg h0 (by norm_num)) ?_
  push_cast
  nlinarith

lemma dream_channel_bounds {c : ℚ} (h0 : 0 ≤ c) (h1 : c ≤ 1) (phase : ℝ) :
    0 ≤ pyIntR ((c : ℝ) * 255 * brightness phase) ∧
      pyIntR ((c : ℝ) * 255 * brightness phase) ≤ 255 := by
  obtain ⟨hb1, hb2⟩ := brightness_bounds phase
  have hb0 : (0 : ℝ) ≤ brightness phase := by linarith
  have hc0 : (0 : ℝ) ≤ (c : ℝ) := by exact_mod_cast h0
  have hc1 : (c : ℝ) ≤ 1 := by exact_mod_cast h1
  refine pyIntR_bounds (mul_nonneg (mul_nonneg hc0 (by norm_num)) hb0) ?_
  push_cast
  nlinarith [mul_le_mul_of_nonneg_right hc1 hb0]

/-- C6: the breathe/dream brightness `0.3 + 0.7*((sin(phase)+1)/2)` lies in
`[0.3, 1.0]` for every phase, and for every hue, LED index, ring size and
rainbow offset the R, G, B channel values written by the rainbow and dream
renderers lie in `[0, 255]`. -/
theorem c6_output_bounds (phase : ℝ) (hue : ℚ) (num_leds i : ℕ) (offset : ℚ) :
    (0.3 ≤ brightness phase ∧ brightness phase ≤ 1) ∧
    (0 ≤ (rainbowPixel num_leds i offset).1 ∧
     (rainbowPixel num_leds i offset).1 ≤ 255 ∧
     0 ≤ (rainbowPixel num_leds i offset).2.1 ∧
     (rainbowPixel num_leds i offset).2.1 ≤ 255 ∧
     0 ≤ (rainbowPixel num_leds i offset).2.2 ∧
     (rainbowPixel num_leds i offset).2.2 ≤ 255) ∧
    (0 ≤ (dreamPixel hue phase).1 ∧ (dreamPixel hue phase).1 ≤ 255 ∧
     0 ≤ (dreamPixel hue phase).2.1 ∧ (dreamPixel hue phase).2.1 ≤ 255 ∧
     0 ≤ (dreamPixel hue phase).2.2 ∧ (dreamPixel hue phase).2.2 ≤ 255) := by
  obtain ⟨⟨r0, r1⟩, ⟨g0, g1⟩, ⟨b0, b1⟩⟩ :=
    hueToRgb_bounds (rainbowHue num_leds i offset)
  obtain ⟨⟨e0, e1⟩, ⟨f0, f1⟩, ⟨w0, w1⟩⟩ := hueToRgb_bounds hue
  refine ⟨brightness_bounds phase, ?_, ?_⟩
  · exact ⟨(rainbow_channel_bounds r0 r1).1, (rainbow_channel_bounds r0 r1).2,
      (rainbow_channel_bounds g0 g1).1, (rainbow_channel_bounds g0 g1).2,
      (rainbow_channel_bounds b0 b1).1, (rainbow_channel_bounds b0 b1).2⟩
  · exact ⟨(dream_channel_bounds e0 e1 phase).1,
      (dream_channel_bounds e0 e1 phase).2,
      (dream_channel_bounds f0 f1 phase).1,
      (dream_channel_bounds f0 f1 phase).2,
      (dream_channel_bounds w0 w1 phase).1,
      (dream_channel_bounds w0 w1 phase).2⟩

/-! ## Claim theorems: request handling -/

lemma clamp255_bounds (v : ℤ) : 0 ≤ clamp255 v ∧ clamp255 v ≤ 255 :=
  ⟨le_max_left 0 _, max_le (by norm_num) (min_le_left _ _)⟩

/-- C7 counterexample: a non-hex color string makes `int(_, 16)` inside
`set_color_hex` raise, and the exception escapes `control_leds` instead of
producing a 4xx response; and an out-of-range numeric color is not
rejected with a client error either — it is clamped and accepted with a
200 response that mutates the LED state. -/
theorem c7_cex_invalid_requests_not_4xx :
    control_leds initRing (some ⟨some "ZZZZZZ", none, none, none⟩) =
      Except.error () ∧
    control_leds initRing (some ⟨none, some 300, some (-5), some 7⟩) =
      Except.ok (LedResponse.ok (set_color initRing 300 (-5) 7),
        set_color initRing 300 (-5) 7) ∧
    (set_color initRing 300 (-5) 7).color = (255, 0, 7) := by
  refine ⟨?_, rfl, ?_⟩ <;> rfl

/-- C7 (amended): absent/falsy JSON and requests missing the color keys
get the 400 branch with no state mutation; a hex string whose parse fails
raises out of the handler, also without mutating state; numeric `r`,`g`,`b`
of any magnitude are accepted after clamping each channel into
`[0, 255]`. -/
theorem c7_invalid_request_handling (st : RingState) :
    control_leds st none = Except.ok (LedResponse.badRequest, st) ∧
    (∀ d : LedRequest, d.hex = none →
      (d.r = none ∨ d.g = none ∨ d.b = none) →
      control_leds st (some d) = Except.ok (LedResponse.badRequest, st)) ∧
    (∀ h, set_color_hex st h = Except.error () →
      control_leds st (some ⟨some h, none, none, none⟩) = Except.error ()) ∧
    (∀ r g b : ℤ,
      control_leds st (some ⟨none, some r, some g, some b⟩) =
        Except.ok (LedResponse.ok (set_color st r g b), set_color st r g b) ∧
      0 ≤ (set_color st r g b).color.1 ∧ (set_color st r g b).color.1 ≤ 255 ∧
      0 ≤ (set_color st r g b).color.2.1 ∧
      (set_color st r g b).color.2.1 ≤ 255 ∧
      0 ≤ (set_color st r g b).color.2.2 ∧
      (set_color st r g b).color.2.2 ≤ 255) := by
  refine ⟨rfl, ?_, ?_, ?_⟩
  · rintro ⟨dh, dr, dg, db⟩ hhex hmiss
    simp only at hhex
    subst hhex
    rcases hmiss with h | h | h <;> simp only at h <;> subst h
    · rfl
    · cases dr <;> cases db <;> rfl
    · cases dr <;> cases dg <;> rfl
  · intro h hh
    simp only [control_leds, hh]
  · intro r g b
    refine ⟨rfl, ?_, ?_, ?_, ?_, ?_, ?_⟩
    · exact (clamp255_bounds r).1
    · exact (clamp255_bounds r).2
    · exact (clamp255_bounds g).1
    · exact (clamp255_bounds g).2
    · exact (clamp255_bounds b).1
    · exact (clamp255_bounds b).2

/-- Witness for C7 (amended): the missing-field, bad-hex and clamped
branches at concrete requests. -/
theorem c7_invalid_request_handling_witness :
    ((LedRequest.mk none (some 1) none (some 2)).hex = none ∧
     set_color_hex initRing "ZZZZZZ" = Except.error ()) ∧
    (control_leds initRing none = Except.ok (LedResponse.badRequest, initRing) ∧
     control_leds initRing (some ⟨none, some 1, none, some 2⟩) =
       Except.ok (LedResponse.badRequest, initRing) ∧
     control_leds initRing (some ⟨some "GG0011", none, none, none⟩) =
       Except.error () ∧
     control_leds initRing (some ⟨none, some 999, some 5, some 6⟩) =
       Except.ok (LedResponse.ok (set_color initRing 999 5 6),
         set_color initRing 999 5 6)) :=
  ⟨⟨rfl, by rfl⟩,
   (c7_invalid_request_handling initRing).1,
   (c7_invalid_request_handling initRing).2.1 ⟨none, some 1, none, some 2⟩ rfl
     (Or.inr (Or.inl rfl)),
   (c7_invalid_request_handling initRing).2.2.1 "GG0011" (by rfl),
   ((c7_invalid_request_handling initRing).2.2.2 999 5 6).1⟩

end LiveLamp
